import Mathlib

/-!
Verification of the match score decoder of
`src/ETL/Extractor/MatchesBaseExtractor.py` (class `MatchesBaseExtractor`).

The decoder is a pure text-to-structured-data function, so it is embedded
shallowly: Python strings become `String`, Python `int` values become `Int`
(Python integers are unbounded), the logger becomes an explicit list of
`Diag` events, and Python exceptions become `Except String`.  The outer
`try/except` of `parse_score` is the final catch that maps any internal
fault to the all-null result.
-/

/-- Severity of one logger event (`logger.info` / `logger.warning` /
`logger.error` in the source). -/
inductive Sev where
  | info
  | warning
  | error
  deriving DecidableEq, Repr

/-- One logger event emitted while decoding a score string.  The message
mirrors the f-string of the source call site. -/
structure Diag where
  sev : Sev
  msg : String
  deriving DecidableEq, Repr

/-- Numeric value of a list of decimal digit characters, most significant
first (what Python `int` computes on an all-digit string). -/
def digitsVal (cs : List Char) : Nat :=
  cs.foldl (fun n c => 10 * n + (c.toNat - 48)) 0

/-- Numeric value of one decimal digit character. -/
def digitVal (c : Char) : Nat := c.toNat - 48

/-- Python `int(s)` in base 10: an optional sign followed by at least one
decimal digit; anything else raises `ValueError` (modelled as `.error`).
Underscore digit grouping and non-ASCII digits are not modelled; no token
of this decoder uses them. -/
def pyInt (s : String) : Except String Int :=
  match s.data with
  | [] => .error ("invalid literal for int() with base 10: " ++ s)
  | c :: cs =>
    if c = '-' then
      if cs ≠ [] ∧ cs.all Char.isDigit then .ok (-(digitsVal cs : Int))
      else .error ("invalid literal for int() with base 10: " ++ s)
    else if c = '+' then
      if cs ≠ [] ∧ cs.all Char.isDigit then .ok (digitsVal cs : Int)
      else .error ("invalid literal for int() with base 10: " ++ s)
    else if (c :: cs).all Char.isDigit then .ok (digitsVal (c :: cs) : Int)
    else .error ("invalid literal for int() with base 10: " ++ s)

/-- Does `needle` occur at the head of `hay`? -/
def startsOf : List Char → List Char → Bool
  | [], _ => true
  | _ :: _, [] => false
  | c :: cs, d :: ds => c == d && startsOf cs ds

/-- Does `needle` occur somewhere inside `hay`? -/
def hasSub (needle : List Char) : List Char → Bool
  | [] => needle.isEmpty
  | d :: ds => startsOf needle (d :: ds) || hasSub needle ds

/-- Python `needle in hay` for strings: substring containment. -/
def pyIn (needle hay : String) : Bool :=
  hasSub needle.data hay.data

/-- Python `s.upper()`: uppercase every character. -/
def pyUpper (s : String) : String :=
  String.mk (s.data.map Char.toUpper)

/-- Python `s.strip()` with no argument: drop leading and trailing
whitespace. -/
def pyStrip (s : String) : String :=
  String.mk
    (((s.data.dropWhile Char.isWhitespace).reverse.dropWhile Char.isWhitespace).reverse)

/-- Lexicographic code-point comparison of character lists: Python `s < t`
on strings. -/
def pyLtChars : List Char → List Char → Bool
  | [], [] => false
  | [], _ :: _ => true
  | _ :: _, [] => false
  | c :: cs, d :: ds => if c < d then true else if d < c then false else pyLtChars cs ds

/-- Python `s < t` on strings. -/
def pyLt (s t : String) : Bool :=
  pyLtChars s.data t.data

/-- Helper of `pySplit`: walk the characters keeping the (reversed)
current chunk. -/
def pySplitAux : List Char → List Char → List String
  | [], acc => if acc.isEmpty then [] else [String.mk acc.reverse]
  | c :: cs, acc =>
    if c.isWhitespace then
      if acc.isEmpty then pySplitAux cs [] else String.mk acc.reverse :: pySplitAux cs []
    else pySplitAux cs (c :: acc)

/-- Python `s.split()` with no argument: split on runs of whitespace,
discarding empty chunks. -/
def pySplit (s : String) : List String :=
  pySplitAux s.data []

/-- Embedding of `MatchesBaseExtractor.get_match_ret` (source lines
269-290): detect retirement/walkover/weather flags from a raw score
string. -/
def get_match_ret (match_score : String) : Option String :=
  let s := pyStrip match_score
  if s = "" then none
  else
    let up := pyUpper s
    if pyIn "W/O" up || pyIn "INV" up || pyIn "WALKOVER" up then some "(W/O)"
    else if pyIn "WEA" up then some "(WEA)"
    else if pyIn "RE" up || pyIn "RET" up || pyIn "DEF" up || pyIn "UNP" up then some "(RET)"
    else if pyIn "PLAYED AND UNFINISHED" up || pyIn "PLAYED AND ABANDONED" up
            || pyIn "UNFINISHED" up then some "(RET)"
    else none

/-- The six mutable counters of `parse_score` (source lines 85-87).
Set and tiebreak counters only ever grow by 1 so they stay `Nat`; game
counters receive `int(...)` results so they are `Int`. -/
structure PState where
  winner_sets_won : Nat
  loser_sets_won : Nat
  winner_games_won : Int
  loser_games_won : Int
  winner_tiebreaks_won : Nat
  loser_tiebreaks_won : Nat
  deriving DecidableEq, Repr

/-- Counters at the start of `parse_score`. -/
def initState : PState := ⟨0, 0, 0, 0, 0, 0⟩

/-- One iteration of the `for set_score in match_score_array` loop of
`parse_score` (source lines 100-231).  Returns the logger events of the
iteration and either the updated counters or the Python exception that
escaped the iteration.  `arr` is `match_score_array`, used only in log
messages. -/
def decodeToken (tournament_code match_id : String) (arr : List String)
    (st : PState) (set_score : String) : List Diag × Except String PState :=
  let cs := set_score.data
  -- lines 101-104 are a no-op (`pass`) in the source
  -- Laver Cup tie-set branch, lines 107-122
  if '[' ∈ cs then
    let d : Diag :=
      if tournament_code = "9210" then
        { sev := .info, msg := "(tie set) Laver Cup; match_id=" ++ match_id ++
            "; set_score=" ++ set_score ++ "; all=" ++ toString arr }
      else
        { sev := .warning, msg := "(tie set) non-Laver; match_id=" ++ match_id ++
            "; set_score=" ++ set_score ++ "; all=" ++ toString arr }
    ([d], .ok { st with
        winner_sets_won := st.winner_sets_won + 1,
        winner_games_won := st.winner_games_won + 1,
        winner_tiebreaks_won := st.winner_tiebreaks_won + 1 })
  -- regular 2-char sets, lines 125-165
  else if cs.length = 2 then
    let c0 := cs.getD 0 ' '
    let c1 := cs.getD 1 ' '
    let pair := String.mk (cs.take 2)
    let wl : List Diag :=
      if tournament_code = "7696" ∧ pair ∈ ["40", "41", "42", "04", "14", "24"] then
        [{ sev := .info, msg := "(small score) NextGen; match_id=" ++ match_id ++
            "; set=" ++ set_score ++ "; all=" ++ toString arr }]
      else if pair ∈ ["86", "97", "68", "79"] ∧
          tournament_code ∈ ["580", "560", "540", "520"] then
        [{ sev := .info, msg := "(big score) Grand Slam; match_id=" ++ match_id ++
            "; set=" ++ set_score ++ "; all=" ++ toString arr }]
      else if pair ∈ ["86", "97", "68", "79"] ∧ tournament_code ∈ ["96"] then
        [{ sev := .warning, msg := "(big score) Olympic; match_id=" ++ match_id ++
            "; set=" ++ set_score ++ "; all=" ++ toString arr }]
      else if pair ∉ ["60", "61", "62", "63", "64", "75", "76", "06", "16",
          "26", "36", "46", "57", "67"] then
        [{ sev := .error, msg := "score not in white list; match_id=" ++ match_id ++
            "; set=" ++ set_score }]
      else []
    if c0 > c1 then
      match pyInt (String.mk [c0]) with
      | .error e => (wl, .error e)
      | .ok a =>
        match pyInt (String.mk [c1]) with
        | .error e => (wl, .error e)
        | .ok b =>
          let tb : Nat × List Diag :=
            if pair = "76" then (1, [])
            else if pair = "43" ∧ tournament_code = "7696" then (1, [])
            else if a - b < 2 then
              (0, [{ sev := .error, msg := "(win) margin <2; match_id=" ++
                  match_id ++ "; set=" ++ set_score }])
            else (0, [])
          (wl ++ tb.2, .ok { st with
              winner_sets_won := st.winner_sets_won + 1,
              winner_games_won := st.winner_games_won + a,
              loser_games_won := st.loser_games_won + b,
              winner_tiebreaks_won := st.winner_tiebreaks_won + tb.1 })
    else if c0 < c1 then
      match pyInt (String.mk [c0]) with
      | .error e => (wl, .error e)
      | .ok a =>
        match pyInt (String.mk [c1]) with
        | .error e => (wl, .error e)
        | .ok b =>
          let tb : Nat × List Diag :=
            if pair = "67" then (1, [])
            else if pair = "34" ∧ tournament_code = "7696" then (1, [])
            else if b - a < 2 then
              (0, [{ sev := .error, msg := "(los) margin <2; match_id=" ++
                  match_id ++ "; set=" ++ set_score }])
            else (0, [])
          (wl ++ tb.2, .ok { st with
              loser_sets_won := st.loser_sets_won + 1,
              winner_games_won := st.winner_games_won + a,
              loser_games_won := st.loser_games_won + b,
              loser_tiebreaks_won := st.loser_tiebreaks_won + tb.1 })
    else
      (wl ++ [{ sev := .error, msg := "len==2 but equal digits; match_id=" ++
          match_id ++ "; set=" ++ set_score }], .ok st)
  -- 3-char super tiebreak forms, lines 168-185
  else if cs.length = 3 then
    if set_score ∈ ["810", "911"] then
      match (if set_score = "911" then pyInt (String.mk (cs.take 2)) else .ok 10) with
      | .error e => ([], .error e)
      | .ok lg =>
        match pyInt (String.mk [cs.getLastD ' ']) with
        | .error e => ([], .error e)
        | .ok wg =>
          ([], .ok { st with
              loser_sets_won := st.loser_sets_won + 1,
              loser_games_won := st.loser_games_won + lg,
              winner_games_won := st.winner_games_won + wg })
    else if set_score ∈ ["108", "106", "107", "119"] then
      let st1 := { st with winner_sets_won := st.winner_sets_won + 1 }
      if set_score = "108" then
        ([], .ok { st1 with
            winner_games_won := st1.winner_games_won + 10,
            loser_games_won := st1.loser_games_won + 8 })
      else if set_score = "106" then
        ([], .ok { st1 with
            winner_games_won := st1.winner_games_won + 10,
            loser_games_won := st1.loser_games_won + 6 })
      else if set_score = "107" then
        ([], .ok { st1 with
            winner_games_won := st1.winner_games_won + 10,
            loser_games_won := st1.loser_games_won + 7 })
      else if set_score = "119" then
        ([], .ok { st1 with
            winner_games_won := st1.winner_games_won + 11,
            loser_games_won := st1.loser_games_won + 9 })
      else ([], .ok st1)
    else
      ([{ sev := .error, msg := "len==3 unrecognized; match_id=" ++ match_id ++
          "; set=" ++ set_score }], .ok st)
  -- 4-char very long sets, lines 188-210
  else if cs.length = 4 then
    let left := String.mk (cs.take 2)
    let right := String.mk (cs.drop 2)
    let wl : List Diag :=
      if tournament_code ∉ ["580", "560", "540", "520"] ∨ pyLt "2200" set_score = true then
        [{ sev := .warning, msg := "(huge score) match_id=" ++ match_id ++
            "; set=" ++ set_score ++ "; all=" ++ toString arr }]
      else []
    if pyLt right left = true then
      match pyInt left with
      | .error e => (wl, .error e)
      | .ok a =>
        match pyInt right with
        | .error e => (wl, .error e)
        | .ok b =>
          let md : List Diag :=
            if a - b < 2 then
              [{ sev := .error, msg := "(win) margin <2; match_id=" ++ match_id ++
                  "; set=" ++ set_score }]
            else []
          (wl ++ md, .ok { st with
              winner_sets_won := st.winner_sets_won + 1,
              winner_games_won := st.winner_games_won + a,
              loser_games_won := st.loser_games_won + b })
    else if pyLt left right = true then
      match pyInt left with
      | .error e => (wl, .error e)
      | .ok a =>
        match pyInt right with
        | .error e => (wl, .error e)
        | .ok b =>
          let md : List Diag :=
            if b - a < 2 then
              [{ sev := .error, msg := "(los) margin <2; match_id=" ++ match_id ++
                  "; set=" ++ set_score }]
            else []
          (wl ++ md, .ok { st with
              loser_sets_won := st.loser_sets_won + 1,
              winner_games_won := st.winner_games_won + a,
              loser_games_won := st.loser_games_won + b })
    else
      (wl ++ [{ sev := .error, msg := "len==4 but tie; match_id=" ++ match_id ++
          "; left=" ++ left ++ "; right=" ++ right ++ "; set=" ++ set_score }],
        .ok st)
  -- detailed tiebreaks of 7 or more chars, lines 213-228
  else if 7 ≤ cs.length then
    let left := String.mk (cs.take 2)
    let right := String.mk ((cs.drop 2).take 2)
    if pyLt right left = true then
      match pyInt left with
      | .error e => ([], .error e)
      | .ok a =>
        match pyInt right with
        | .error e => ([], .error e)
        | .ok b =>
          ([], .ok { st with
              winner_sets_won := st.winner_sets_won + 1,
              winner_games_won := st.winner_games_won + a,
              loser_games_won := st.loser_games_won + b,
              winner_tiebreaks_won := st.winner_tiebreaks_won + 1 })
    else if pyLt left right = true then
      match pyInt left with
      | .error e => ([], .error e)
      | .ok a =>
        match pyInt right with
        | .error e => ([], .error e)
        | .ok b =>
          ([], .ok { st with
              loser_sets_won := st.loser_sets_won + 1,
              winner_games_won := st.winner_games_won + a,
              loser_games_won := st.loser_games_won + b,
              loser_tiebreaks_won := st.loser_tiebreaks_won + 1 })
    else
      ([{ sev := .error, msg := "len>=7 but tie; match_id=" ++ match_id ++
          "; LHS=" ++ left ++ "; RHS=" ++ right ++ "; set=" ++ set_score }],
        .ok st)
  else
    ([{ sev := .error, msg := "Unhandled set format; match_id=" ++ match_id ++
        "; set=" ++ set_score }], .ok st)

/-- The whole token loop of `parse_score`: iterate `decodeToken` over the
token list, accumulating logger events, stopping at the first escaped
exception (which aborts the Python `for` loop). -/
def decodeTokens (tournament_code match_id : String) (arr : List String) :
    PState → List String → List Diag × Except String PState
  | st, [] => ([], .ok st)
  | st, t :: ts =>
    match decodeToken tournament_code match_id arr st t with
    | (ds, .ok st1) =>
      let r := decodeTokens tournament_code match_id arr st1 ts
      (ds ++ r.1, r.2)
    | (ds, .error e) => (ds, .error e)

/-- The allow-list of final set scores of the sanity check (source line
234): `{'30', '31', '32', '21', '20'}`. -/
def allowedFinalScores : List String := ["30", "31", "32", "21", "20"]

/-- The final sanity check of `parse_score` (source lines 233-239): the
formatted pair of set counters must be in the allow-list, otherwise an
Error event is logged.  It only produces logger events. -/
def validatorDiags (match_id : String) (arr : List String) (st : PState) :
    List Diag :=
  if (toString st.winner_sets_won ++ toString st.loser_sets_won) ∈ allowedFinalScores
  then []
  else [{ sev := .error, msg := "(unexpected match score) score=" ++
      toString st.winner_sets_won ++ toString st.loser_sets_won ++
      " match_id=" ++ match_id ++ "; sets=" ++ toString arr }]

/-- The 7-slot return value of `parse_score`:
`[match_ret, winner_sets_won, loser_sets_won, winner_games_won,
loser_games_won, winner_tiebreaks_won, loser_tiebreaks_won]`, each slot
possibly `None`. -/
structure ScoreResult where
  match_ret : Option String
  winner_sets_won : Option Nat
  loser_sets_won : Option Nat
  winner_games_won : Option Int
  loser_games_won : Option Int
  winner_tiebreaks_won : Option Nat
  loser_tiebreaks_won : Option Nat
  deriving DecidableEq, Repr

/-- The all-`None` 7-slot result returned by the `except` guard (source
line 250). -/
def allNullResult : ScoreResult := ⟨none, none, none, none, none, none, none⟩

/-- The early return for a non-played match (source lines 92-95). -/
def retResult (r : String) : ScoreResult := ⟨some r, none, none, none, none, none, none⟩

/-- The normal return packaging the six counters (source lines 241-246). -/
def mkPlayedResult (st : PState) : ScoreResult :=
  ⟨none, some st.winner_sets_won, some st.loser_sets_won,
    some st.winner_games_won, some st.loser_games_won,
    some st.winner_tiebreaks_won, some st.loser_tiebreaks_won⟩

/-- Embedding of `MatchesBaseExtractor.parse_score` (source lines 57-250).
The first component collects every logger event of the call; the second is
the returned 7-slot value.  The outer `try/except` appears as the final
`match` on the loop result: an escaped exception yields the all-null
result plus one Error event. -/
def parse_score (match_score match_id tournament_code : String) :
    List Diag × ScoreResult :=
  match get_match_ret match_score with
  | some r => ([], retResult r)
  | none =>
    let arr := pySplit match_score
    match decodeTokens tournament_code match_id arr initState arr with
    | (ds, .ok st) => (ds ++ validatorDiags match_id arr st, mkPlayedResult st)
    | (ds, .error e) =>
      (ds ++ [{ sev := .error, msg := "match_id=" ++ match_id ++
          "; parse_score error: " ++ e }], allNullResult)

/-- One slot of the returned Python list: `None`, a string, or an int. -/
inductive ScoreField where
  | null
  | strVal (s : String)
  | numVal (n : Int)
  deriving DecidableEq, Repr

/-- Slot for the `match_ret` position. -/
def retField : Option String → ScoreField
  | none => .null
  | some s => .strVal s

/-- Slot for a `Nat` counter position. -/
def natField : Option Nat → ScoreField
  | none => .null
  | some n => .numVal n

/-- Slot for an `Int` counter position. -/
def intField : Option Int → ScoreField
  | none => .null
  | some n => .numVal n

/-- The returned value of `parse_score` as the 7-element Python list. -/
def ScoreResult.toList (r : ScoreResult) : List ScoreField :=
  [retField r.match_ret, natField r.winner_sets_won, natField r.loser_sets_won,
    intField r.winner_games_won, intField r.loser_games_won,
    natField r.winner_tiebreaks_won, natField r.loser_tiebreaks_won]

/-- `parse_score` seen as returning the raw 7-element list. -/
def parse_score_list (match_score match_id tournament_code : String) :
    List ScoreField :=
  (parse_score match_score match_id tournament_code).2.toList

/-- A `ScoreResult` whose six numeric slots are all set. -/
def sixSet (r : ScoreResult) : Prop :=
  r.winner_sets_won.isSome = true ∧ r.loser_sets_won.isSome = true ∧
  r.winner_games_won.isSome = true ∧ r.loser_games_won.isSome = true ∧
  r.winner_tiebreaks_won.isSome = true ∧ r.loser_tiebreaks_won.isSome = true

/-- A `ScoreResult` whose six numeric slots are all `None`. -/
def sixUnset (r : ScoreResult) : Prop :=
  r.winner_sets_won = none ∧ r.loser_sets_won = none ∧
  r.winner_games_won = none ∧ r.loser_games_won = none ∧
  r.winner_tiebreaks_won = none ∧ r.loser_tiebreaks_won = none

/-- Claim C1, counterexample: decoding the single token "911" on the
Played path does not increment the loser games by 11; the source computes
`int(set_score[0:2])`, which on "911" is `int("91") = 91`. -/
theorem parse_score_911_not_11 :
    (parse_score "911" "m1" "250").2.loser_games_won ≠ some 11 := by
  decide

/-- Claim C1 as amended: for every match id and tournament code, decoding
the single-token score text "911" on the Played path yields loser sets
incremented by 1, loser games incremented by 91 (the integer parsed from
the token first two characters "91"), and winner games incremented by the
last digit (1). -/
theorem parse_score_911_decodes_91 (match_id tournament_code : String) :
    (parse_score "911" match_id tournament_code).2 =
      ⟨none, some 0, some 1, some 1, some 91, some 0, some 0⟩ :=
  rfl

/-- Claim C2, counterexample: on input "6a" the returned outcome flag is
null and yet the six numeric fields are not set: the internal fault makes
the guard return the all-null result, whose flag is also null. -/
theorem parse_score_set_fields_cex :
    ¬ ((parse_score "6a" "c2" "250").2.match_ret = none →
       (parse_score "6a" "c2" "250").2.winner_sets_won.isSome = true) := by
  decide

/-- Claim C2 as amended: for every input, the returned `MatchAggregate`
either has a null outcome flag with all six numeric fields set, or has
all six numeric fields unset (the latter covers both a non-null outcome
flag and the all-null fault result, whose flag is null too). -/
theorem parse_score_fields_set_or_all_null (s match_id tournament_code : String) :
    ((parse_score s match_id tournament_code).2.match_ret = none ∧
      sixSet (parse_score s match_id tournament_code).2) ∨
    sixUnset (parse_score s match_id tournament_code).2 := by
  rcases h : get_match_ret s with - | r
  · rcases h2 : decodeTokens tournament_code match_id (pySplit s) initState (pySplit s)
      with ⟨ds, r2⟩
    rcases r2 with e | st
    · right
      simp [parse_score, h, h2, sixUnset, allNullResult]
    · left
      simp [parse_score, h, h2, sixSet, mkPlayedResult]
  · right
    simp [parse_score, h, sixUnset, retResult]

/-- Claim C3: `parse_score` always returns a 7-element result, and any
internal fault of the decoding loop is caught by the outer guard, which
returns the all-null result and appends exactly one Error diagnostic to
the events already logged before the fault. -/
theorem parse_score_guard_catches (s match_id tournament_code : String)
    (ds : List Diag) (e : String)
    (h1 : get_match_ret s = none)
    (h2 : decodeTokens tournament_code match_id (pySplit s) initState (pySplit s) =
      (ds, .error e)) :
    parse_score s match_id tournament_code =
      (ds ++ [⟨.error, "match_id=" ++ match_id ++ "; parse_score error: " ++ e⟩],
        allNullResult) ∧
    (parse_score_list s match_id tournament_code).length = 7 := by
  constructor
  · simp [parse_score, h1, h2]
  · rfl

/-- Claim C3, witness: the guard theorem applied to the faulting input
"6a" (the conversion `int("a")` raises). -/
theorem parse_score_guard_catches_applied :
    parse_score "6a" "c3" "250" =
      ([⟨.error, "score not in white list; match_id=c3; set=6a"⟩] ++
        [⟨.error, "match_id=c3; parse_score error: invalid literal for int() with base 10: a"⟩],
        allNullResult) ∧
    (parse_score_list "6a" "c3" "250").length = 7 :=
  parse_score_guard_catches "6a" "c3" "250"
    [⟨.error, "score not in white list; match_id=c3; set=6a"⟩]
    "invalid literal for int() with base 10: a" rfl rfl

/-- Claim C10: a 2-character token with a non-digit second character, such
as "6a", does not produce a per-token decode error that skips only that
token: the character comparison picks the loss branch, the integer
conversion then faults, and the whole match returns the all-null 7-slot
result, discarding the tally of every other token of the same input (the
token "64" alone would have tallied one set and 6-4 games). -/
theorem nondigit_token_faults_whole_match :
    (decodeToken "250" "c10" ["64", "6a"] ⟨1, 0, 6, 4, 0, 0⟩ "6a").2 =
      .error "invalid literal for int() with base 10: a" ∧
    (parse_score "6a" "c10" "250").2 = allNullResult ∧
    (parse_score "64 6a" "c10" "250").2 = allNullResult ∧
    (parse_score "64" "c10" "250").2 =
      ⟨none, some 1, some 0, some 6, some 4, some 0, some 0⟩ := by
  refine ⟨rfl, rfl, rfl, rfl⟩

/-- Claim C4: on the Played path the literal pair "76" credits one
tiebreak to the winner and "67" one to the loser for any tournament code,
while "43" and "34" credit a winner/loser tiebreak only under the NextGen
code "7696"; and `decode("76 36 76", id, "250")` yields winnerSets=2,
loserSets=1, winnerTiebreaks=2, loserTiebreaks=0. -/
theorem tiebreak_pair_attribution :
    (∀ (tournament_code match_id : String) (arr : List String) (st : PState),
      (decodeToken tournament_code match_id arr st "76").2 =
        .ok ⟨st.winner_sets_won + 1, st.loser_sets_won, st.winner_games_won + 7,
          st.loser_games_won + 6, st.winner_tiebreaks_won + 1, st.loser_tiebreaks_won⟩) ∧
    (∀ (tournament_code match_id : String) (arr : List String) (st : PState),
      (decodeToken tournament_code match_id arr st "67").2 =
        .ok ⟨st.winner_sets_won, st.loser_sets_won + 1, st.winner_games_won + 6,
          st.loser_games_won + 7, st.winner_tiebreaks_won, st.loser_tiebreaks_won + 1⟩) ∧
    (∀ (match_id : String) (arr : List String) (st : PState),
      (decodeToken "7696" match_id arr st "43").2 =
        .ok ⟨st.winner_sets_won + 1, st.loser_sets_won, st.winner_games_won + 4,
          st.loser_games_won + 3, st.winner_tiebreaks_won + 1, st.loser_tiebreaks_won⟩) ∧
    (∀ (match_id : String) (arr : List String) (st : PState),
      (decodeToken "7696" match_id arr st "34").2 =
        .ok ⟨st.winner_sets_won, st.loser_sets_won + 1, st.winner_games_won + 3,
          st.loser_games_won + 4, st.winner_tiebreaks_won, st.loser_tiebreaks_won + 1⟩) ∧
    (∀ (tournament_code match_id : String) (arr : List String) (st : PState),
      tournament_code ≠ "7696" →
      (decodeToken tournament_code match_id arr st "43").2 =
        .ok ⟨st.winner_sets_won + 1, st.loser_sets_won, st.winner_games_won + 4,
          st.loser_games_won + 3, st.winner_tiebreaks_won, st.loser_tiebreaks_won⟩) ∧
    (∀ (tournament_code match_id : String) (arr : List String) (st : PState),
      tournament_code ≠ "7696" →
      (decodeToken tournament_code match_id arr st "34").2 =
        .ok ⟨st.winner_sets_won, st.loser_sets_won + 1, st.winner_games_won + 3,
          st.loser_games_won + 4, st.winner_tiebreaks_won, st.loser_tiebreaks_won⟩) ∧
    (∀ match_id : String,
      (parse_score "76 36 76" match_id "250").2 =
        ⟨none, some 2, some 1, some 17, some 18, some 2, some 0⟩) := by
  refine ⟨fun c i a st => rfl, fun c i a st => rfl, fun i a st => rfl, fun i a st => rfl,
    ?_, ?_, fun i => rfl⟩
  · intro tournament_code match_id arr st h
    simp +decide [decodeToken, h, show pyInt "4" = .ok 4 from rfl,
      show pyInt "3" = .ok 3 from rfl]
  · intro tournament_code match_id arr st h
    simp +decide [decodeToken, h, show pyInt "3" = .ok 3 from rfl,
      show pyInt "4" = .ok 4 from rfl]

/-- Claim C4, witness: the non-NextGen clauses applied at the ordinary
tour code "250": under it, "43" and "34" credit no tiebreak. -/
theorem tiebreak_pair_attribution_applied :
    (decodeToken "250" "c4" [] initState "43").2 = .ok ⟨1, 0, 4, 3, 0, 0⟩ ∧
    (decodeToken "250" "c4" [] initState "34").2 = .ok ⟨0, 1, 3, 4, 0, 0⟩ := by
  constructor
  · exact tiebreak_pair_attribution.2.2.2.2.1 "250" "c4" [] initState (by decide)
  · exact tiebreak_pair_attribution.2.2.2.2.2.1 "250" "c4" [] initState (by decide)

/-- If an extended needle is a prefix of `hay`, so is its first part. -/
theorem startsOf_append (n m hay : List Char) (h : startsOf (n ++ m) hay = true) :
    startsOf n hay = true := by
  induction n generalizing hay with
  | nil => rfl
  | cons c cs ih =>
    cases hay with
    | nil => simp [startsOf] at h
    | cons d ds =>
      simp only [List.cons_append, startsOf, Bool.and_eq_true] at h ⊢
      exact ⟨h.1, ih ds h.2⟩

/-- If an extended needle occurs in `hay`, so does its first part. -/
theorem hasSub_append (n m hay : List Char) (h : hasSub (n ++ m) hay = true) :
    hasSub n hay = true := by
  induction hay with
  | nil =>
    simp only [hasSub, List.isEmpty_iff, List.append_eq_nil] at h ⊢
    exact h.1
  | cons d ds ih =>
    simp only [hasSub, Bool.or_eq_true] at h ⊢
    rcases h with h | h
    · exact Or.inl (startsOf_append n m _ h)
    · exact Or.inr (ih h)

/-- A string containing "RET" also contains "RE". -/
theorem pyIn_RE_of_RET (up : String) (h : pyIn "RET" up = true) :
    pyIn "RE" up = true :=
  hasSub_append "RE".data ['T'] up.data h

/-- Claim C5: the Outcome Classifier evaluates its case-insensitive
substring rules in strict priority order with first match winning:
walkover substrings dominate everything, "WEA" dominates the retired
substrings, the retired substrings (including the intentionally broad
"RE") dominate the Played default, and a text matching none of the rules
classifies as Played (`none`). -/
theorem get_match_ret_priority (s : String) :
    ((pyIn "W/O" (pyUpper (pyStrip s)) = true ∨ pyIn "INV" (pyUpper (pyStrip s)) = true ∨
        pyIn "WALKOVER" (pyUpper (pyStrip s)) = true) →
      get_match_ret s = some "(W/O)") ∧
    ((pyIn "W/O" (pyUpper (pyStrip s)) = false ∧ pyIn "INV" (pyUpper (pyStrip s)) = false ∧
        pyIn "WALKOVER" (pyUpper (pyStrip s)) = false) →
      pyIn "WEA" (pyUpper (pyStrip s)) = true →
      get_match_ret s = some "(WEA)") ∧
    ((pyIn "W/O" (pyUpper (pyStrip s)) = false ∧ pyIn "INV" (pyUpper (pyStrip s)) = false ∧
        pyIn "WALKOVER" (pyUpper (pyStrip s)) = false ∧
        pyIn "WEA" (pyUpper (pyStrip s)) = false) →
      (pyIn "RE" (pyUpper (pyStrip s)) = true ∨ pyIn "DEF" (pyUpper (pyStrip s)) = true ∨
        pyIn "UNP" (pyUpper (pyStrip s)) = true ∨
        pyIn "PLAYED AND UNFINISHED" (pyUpper (pyStrip s)) = true ∨
        pyIn "PLAYED AND ABANDONED" (pyUpper (pyStrip s)) = true ∨
        pyIn "UNFINISHED" (pyUpper (pyStrip s)) = true) →
      get_match_ret s = some "(RET)") ∧
    ((pyIn "W/O" (pyUpper (pyStrip s)) = false ∧ pyIn "INV" (pyUpper (pyStrip s)) = false ∧
        pyIn "WALKOVER" (pyUpper (pyStrip s)) = false ∧
        pyIn "WEA" (pyUpper (pyStrip s)) = false ∧
        pyIn "RE" (pyUpper (pyStrip s)) = false ∧ pyIn "DEF" (pyUpper (pyStrip s)) = false ∧
        pyIn "UNP" (pyUpper (pyStrip s)) = false ∧
        pyIn "PLAYED AND UNFINISHED" (pyUpper (pyStrip s)) = false ∧
        pyIn "PLAYED AND ABANDONED" (pyUpper (pyStrip s)) = false ∧
        pyIn "UNFINISHED" (pyUpper (pyStrip s)) = false) →
      get_match_ret s = none) := by
  refine ⟨?_, ?_, ?_, ?_⟩
  · intro h
    by_cases hs : pyStrip s = ""
    · rw [hs] at h
      rcases h with h | h | h <;> exact absurd h (by decide)
    · unfold get_match_ret
      rw [if_neg hs]
      rcases h with h | h | h <;> simp [h]
  · rintro ⟨h1, h2, h3⟩ hwea
    by_cases hs : pyStrip s = ""
    · rw [hs] at hwea
      exact absurd hwea (by decide)
    · unfold get_match_ret
      rw [if_neg hs]
      simp [h1, h2, h3, hwea]
  · rintro ⟨h1, h2, h3, h4⟩ hret
    by_cases hs : pyStrip s = ""
    · rw [hs] at hret
      rcases hret with h | h | h | h | h | h <;> exact absurd h (by decide)
    · unfold get_match_ret
      rw [if_neg hs]
      cases hre : pyIn "RE" (pyUpper (pyStrip s)) with
      | true => simp [h1, h2, h3, h4, hre]
      | false =>
        have hrets : pyIn "RET" (pyUpper (pyStrip s)) = false := by
          cases hx : pyIn "RET" (pyUpper (pyStrip s)) with
          | false => rfl
          | true => exact absurd (pyIn_RE_of_RET _ hx) (by simp [hre])
        rcases hret with h | h | h | h | h | h
        · exact absurd h (by simp [hre])
        all_goals simp [h1, h2, h3, h4, hre, hrets, h]
  · rintro ⟨h1, h2, h3, h4, h5, h6, h7, h8, h9, h10⟩
    have hrets : pyIn "RET" (pyUpper (pyStrip s)) = false := by
      cases hx : pyIn "RET" (pyUpper (pyStrip s)) with
      | false => rfl
      | true => exact absurd (pyIn_RE_of_RET _ hx) (by simp [h5])
    by_cases hs : pyStrip s = ""
    · unfold get_match_ret
      rw [if_pos hs]
    · unfold get_match_ret
      rw [if_neg hs]
      simp [h1, h2, h3, h4, h5, h6, h7, h8, h9, h10, hrets]

/-- Claim C5, witness: one representative text per priority rule.
"W/O WEA RE" has walkover, weather and retired substrings but classifies
as Walkover; "WEA RE" as Weather; "RE" as Retired; "64 75" as Played. -/
theorem get_match_ret_priority_applied :
    get_match_ret "W/O WEA RE" = some "(W/O)" ∧
    get_match_ret "WEA RE" = some "(WEA)" ∧
    get_match_ret "RE" = some "(RET)" ∧
    get_match_ret "64 75" = none :=
  ⟨(get_match_ret_priority "W/O WEA RE").1 (Or.inl (by decide)),
    (get_match_ret_priority "WEA RE").2.1 (by decide) (by decide),
    (get_match_ret_priority "RE").2.2.1 (by decide) (Or.inl (by decide)),
    (get_match_ret_priority "64 75").2.2.2 (by decide)⟩

/-- Claim C6: every token containing the character `[` is credited as
exactly one set, one game and one tiebreak to the winner and nothing to
the loser, identically for every tournament code; only the severity of
the single accompanying diagnostic depends on the code (Info for the
Laver Cup code "9210", Warning for any other code). -/
theorem bracket_token_decode (tournament_code match_id : String) (arr : List String)
    (st : PState) (set_score : String) (h : '[' ∈ set_score.data) :
    (decodeToken tournament_code match_id arr st set_score).2 =
      .ok ⟨st.winner_sets_won + 1, st.loser_sets_won, st.winner_games_won + 1,
        st.loser_games_won, st.winner_tiebreaks_won + 1, st.loser_tiebreaks_won⟩ ∧
    (decodeToken tournament_code match_id arr st set_score).1.map Diag.sev =
      [if tournament_code = "9210" then Sev.info else Sev.warning] := by
  constructor
  · simp [decodeToken, h]
  · simp [decodeToken, h, apply_ite Diag.sev]

/-- Claim C6, witness: the bracket token "[10-8]" decoded under the Laver
Cup code credits 1 set, 1 game, 1 tiebreak to the winner, with a single
Info diagnostic. -/
theorem bracket_token_decode_applied :
    (decodeToken "9210" "c6" [] initState "[10-8]").2 = .ok ⟨1, 0, 1, 0, 1, 0⟩ ∧
    (decodeToken "9210" "c6" [] initState "[10-8]").1.map Diag.sev = [Sev.info] :=
  bracket_token_decode "9210" "c6" [] initState "[10-8]" (by decide)

/-- Python `int` on a single decimal digit character yields its value. -/
theorem pyInt_digit (c : Char) (h : c.isDigit = true) :
    pyInt (String.mk [c]) = .ok (digitVal c : Int) := by
  have hm : c ≠ '-' := by
    intro hEq
    rw [hEq] at h
    exact absurd h (by decide)
  have hp : c ≠ '+' := by
    intro hEq
    rw [hEq] at h
    exact absurd h (by decide)
  simp [pyInt, hm, hp, h, digitsVal, digitVal]

/-- Claim C7: a two-digit token with distinct digits, winning margin
below 2, that is not a recognized tiebreak pair ("76"/"67" always,
"43"/"34" under the NextGen code "7696"), is still fully tallied — the
winning side gains one set and both game counters gain the digit values —
while a margin Error diagnostic is emitted; the token is never
discarded. -/
theorem two_digit_margin_flagged (tournament_code match_id : String) (arr : List String)
    (st : PState) (c0 c1 : Char) (set_score : String)
    (hdata : set_score.data = [c0, c1])
    (hd0 : c0.isDigit = true) (hd1 : c1.isDigit = true)
    (hne : c0 ≠ c1)
    (hm1 : (digitVal c0 : Int) - digitVal c1 < 2)
    (hm2 : (digitVal c1 : Int) - digitVal c0 < 2)
    (h76 : set_score ≠ "76") (h67 : set_score ≠ "67")
    (h43 : tournament_code = "7696" → set_score ≠ "43" ∧ set_score ≠ "34") :
    (decodeToken tournament_code match_id arr st set_score).2 =
      .ok (if c0 > c1 then
          (⟨st.winner_sets_won + 1, st.loser_sets_won,
            st.winner_games_won + digitVal c0, st.loser_games_won + digitVal c1,
            st.winner_tiebreaks_won, st.loser_tiebreaks_won⟩ : PState)
        else
          ⟨st.winner_sets_won, st.loser_sets_won + 1,
            st.winner_games_won + digitVal c0, st.loser_games_won + digitVal c1,
            st.winner_tiebreaks_won, st.loser_tiebreaks_won⟩) ∧
    (if c0 > c1 then
        (⟨Sev.error, "(win) margin <2; match_id=" ++ match_id ++ "; set=" ++ set_score⟩ : Diag)
      else
        ⟨Sev.error, "(los) margin <2; match_id=" ++ match_id ++ "; set=" ++ set_score⟩) ∈
      (decodeToken tournament_code match_id arr st set_score).1 := by
  have hb0 : c0 ≠ '[' := by
    intro hEq
    rw [hEq] at hd0
    exact absurd hd0 (by decide)
  have hb1 : c1 ≠ '[' := by
    intro hEq
    rw [hEq] at hd1
    exact absurd hd1 (by decide)
  have hmk : String.mk [c0, c1] = set_score := by rw [← hdata]
  have htake : [c0, c1].take 2 = [c0, c1] := rfl
  have h43n : ¬ (set_score = "43" ∧ tournament_code = "7696") :=
    fun hx => (h43 hx.2).1 hx.1
  have h34n : ¬ (set_score = "34" ∧ tournament_code = "7696") :=
    fun hx => (h43 hx.2).2 hx.1
  rcases lt_trichotomy c0 c1 with hlt | heq | hgt
  · have hng : ¬ (c1 < c0) := lt_asymm hlt
    constructor <;>
      simp [decodeToken, hdata, Ne.symm hb0, Ne.symm hb1, htake, hmk,
        pyInt_digit c0 hd0, pyInt_digit c1 hd1, h76, h67, h43n, h34n,
        hlt, hng, hm2, gt_iff_lt]
  · exact absurd heq hne
  · have hng : ¬ (c0 < c1) := lt_asymm hgt
    constructor <;>
      simp [decodeToken, hdata, Ne.symm hb0, Ne.symm hb1, htake, hmk,
        pyInt_digit c0 hd0, pyInt_digit c1 hd1, h76, h67, h43n, h34n,
        hgt, hng, hm1, gt_iff_lt]

/-- Claim C7, witness: the token "54" under an ordinary tour code is
tallied as one winner set and 5-4 games, with the margin Error
diagnostic present. -/
theorem two_digit_margin_flagged_applied :
    (decodeToken "250" "c7" [] initState "54").2 = .ok ⟨1, 0, 5, 4, 0, 0⟩ ∧
    (⟨Sev.error, "(win) margin <2; match_id=c7; set=54"⟩ : Diag) ∈
      (decodeToken "250" "c7" [] initState "54").1 :=
  two_digit_margin_flagged "250" "c7" [] initState '5' '4' "54" rfl rfl rfl
    (by decide) (by decide) (by decide) (by decide) (by decide)
    (fun h => absurd h (by decide))

/-- Claim C8: on the Played path the final pair of set counters is
compared against exactly the allow-list `{"30","31","32","21","20"}`; a
pair outside the list contributes a single Error diagnostic, a pair
inside contributes nothing, and in either case the returned aggregate is
`mkPlayedResult st`, untouched by the check. -/
theorem validator_allowlist_only_logs (s match_id tournament_code : String)
    (ds : List Diag) (st : PState)
    (h1 : get_match_ret s = none)
    (h2 : decodeTokens tournament_code match_id (pySplit s) initState (pySplit s) =
      (ds, .ok st)) :
    parse_score s match_id tournament_code =
      (ds ++ validatorDiags match_id (pySplit s) st, mkPlayedResult st) ∧
    (parse_score s match_id tournament_code).2 = mkPlayedResult st ∧
    ((toString st.winner_sets_won ++ toString st.loser_sets_won) ∈ allowedFinalScores →
      validatorDiags match_id (pySplit s) st = []) ∧
    ((toString st.winner_sets_won ++ toString st.loser_sets_won) ∉ allowedFinalScores →
      (validatorDiags match_id (pySplit s) st).map Diag.sev = [Sev.error]) := by
  have hmain : parse_score s match_id tournament_code =
      (ds ++ validatorDiags match_id (pySplit s) st, mkPlayedResult st) := by
    simp [parse_score, h1, h2]
  refine ⟨hmain, by rw [hmain], ?_, ?_⟩
  · intro hin
    simp [validatorDiags, hin]
  · intro hout
    simp [validatorDiags, hout]

/-- Claim C8, witness: "64 64" aggregates to the allowed pair 2-0, so the
Validator adds nothing and the aggregate is returned as computed. -/
theorem validator_allowlist_only_logs_applied :
    (parse_score "64 64" "c8" "250").2 = mkPlayedResult ⟨2, 0, 12, 8, 0, 0⟩ ∧
    validatorDiags "c8" (pySplit "64 64") ⟨2, 0, 12, 8, 0, 0⟩ = [] := by
  have h := validator_allowlist_only_logs "64 64" "c8" "250" [] ⟨2, 0, 12, 8, 0, 0⟩ rfl rfl
  exact ⟨h.2.1, h.2.2.1 (by decide)⟩

/-- Every successful loop iteration grows the two set counters by at most
one in total (each token credits at most one set to one side). -/
theorem decodeToken_sets_le (tournament_code match_id : String) (arr : List String)
    (st : PState) (tok : String) (ds : List Diag) (stOut : PState)
    (h : decodeToken tournament_code match_id arr st tok = (ds, .ok stOut)) :
    stOut.winner_sets_won + stOut.loser_sets_won ≤
      st.winner_sets_won + st.loser_sets_won + 1 := by
  by_cases hbr : '[' ∈ tok.data
  · simp only [decodeToken, if_pos hbr, Prod.mk.injEq, Except.ok.injEq] at h
    obtain ⟨-, h2⟩ := h
    subst h2
    dsimp only
    omega
  · by_cases h2c : tok.data.length = 2
    · simp only [decodeToken, if_neg hbr, if_pos h2c] at h
      repeat' split at h
      all_goals first
        | (exfalso; simp at h; done)
        | (simp only [Prod.mk.injEq, Except.ok.injEq] at h
           obtain ⟨-, h2⟩ := h
           subst h2
           try dsimp only
           omega)
    · by_cases h3c : tok.data.length = 3
      · simp only [decodeToken, if_neg hbr, if_neg h2c, if_pos h3c] at h
        repeat' split at h
        all_goals first
          | (exfalso; simp at h; done)
          | (simp only [Prod.mk.injEq, Except.ok.injEq] at h
             obtain ⟨-, h2⟩ := h
             subst h2
             try dsimp only
             omega)
      · by_cases h4c : tok.data.length = 4
        · simp only [decodeToken, if_neg hbr, if_neg h2c, if_neg h3c, if_pos h4c] at h
          repeat' split at h
          all_goals first
            | (exfalso; simp at h; done)
            | (simp only [Prod.mk.injEq, Except.ok.injEq] at h
               obtain ⟨-, h2⟩ := h
               subst h2
               try dsimp only
               omega)
        · by_cases h7c : 7 ≤ tok.data.length
          · simp only [decodeToken, if_neg hbr, if_neg h2c, if_neg h3c, if_neg h4c,
              if_pos h7c] at h
            repeat' split at h
            all_goals first
              | (exfalso; simp at h; done)
              | (simp only [Prod.mk.injEq, Except.ok.injEq] at h
                 obtain ⟨-, h2⟩ := h
                 subst h2
                 try dsimp only
                 omega)
          · simp only [decodeToken, if_neg hbr, if_neg h2c, if_neg h3c, if_neg h4c,
              if_neg h7c, Prod.mk.injEq, Except.ok.injEq] at h
            obtain ⟨-, h2⟩ := h
            subst h2
            omega

/-- The whole loop grows the two set counters by at most the number of
tokens. -/
theorem decodeTokens_sets_le (tournament_code match_id : String) (arr : List String) :
    ∀ (ts : List String) (st : PState) (ds : List Diag) (stOut : PState),
      decodeTokens tournament_code match_id arr st ts = (ds, .ok stOut) →
      stOut.winner_sets_won + stOut.loser_sets_won ≤
        st.winner_sets_won + st.loser_sets_won + ts.length := by
  intro ts
  induction ts with
  | nil =>
    intro st ds stOut h
    simp only [decodeTokens, Prod.mk.injEq, Except.ok.injEq] at h
    obtain ⟨-, h2⟩ := h
    subst h2
    simp
  | cons t ts ih =>
    intro st ds stOut h
    simp only [decodeTokens] at h
    split at h
    case _ ds1 st1 heq =>
      rcases hr : decodeTokens tournament_code match_id arr st1 ts with ⟨ds2, r2⟩
      rw [hr] at h
      simp only [Prod.mk.injEq] at h
      obtain ⟨-, h2⟩ := h
      subst h2
      have b1 := decodeToken_sets_le tournament_code match_id arr st t ds1 st1 heq
      have b2 := ih st1 ds2 stOut hr
      simp only [List.length_cons]
      omega
    case _ ds1 e heq =>
      exfalso
      simp at h

/-- Claim C9: whenever the returned outcome flag is null and the six
numeric fields are present (Played path, no fatal fault), the two set
counters sum to at most the number of whitespace-separated tokens of the
input. -/
theorem sets_bounded_by_tokens (s match_id tournament_code : String) (w l : Nat)
    (hret : (parse_score s match_id tournament_code).2.match_ret = none)
    (hw : (parse_score s match_id tournament_code).2.winner_sets_won = some w)
    (hl : (parse_score s match_id tournament_code).2.loser_sets_won = some l) :
    w + l ≤ (pySplit s).length := by
  rcases hm : get_match_ret s with - | r
  · rcases h2 : decodeTokens tournament_code match_id (pySplit s) initState (pySplit s)
      with ⟨ds, r2⟩
    rcases r2 with e | st
    · exfalso
      simp [parse_score, hm, h2, allNullResult] at hw
    · have hb := decodeTokens_sets_le tournament_code match_id (pySplit s) (pySplit s)
        initState ds st h2
      simp [parse_score, hm, h2, mkPlayedResult] at hw hl
      simp [initState] at hb
      omega
  · exfalso
    simp [parse_score, hm, retResult] at hret

/-- Claim C9, witness: "64 75" has two tokens and the decoded set
counters sum to 2. -/
theorem sets_bounded_by_tokens_applied : 2 + 0 ≤ (pySplit "64 75").length :=
  sets_bounded_by_tokens "64 75" "c9" "250" 2 0 rfl rfl rfl
